import Mathlib

/-!
Verification development for `aws_sso_status.py`, a menu-bar utility that
tracks AWS SSO session status.  The Python source is shallowly embedded:
instants are modelled as `Int` seconds on an absolute (UTC) time line, the
per-profile login-timestamp files are an association list passed as explicit
state, and the tick handler `update_status` is a pure function from the
application state and the tick's external inputs (clock readings and the
live-login check result) to the new state, the published status snapshot and
the externally visible effects (recorded logins, notifications).
-/

/-! ## Constants (module-level constants of the source) -/

def SESSION_DURATION_HOURS : Int := 8

def EXPIRY_WARNING_MINUTES : Int := 10

def CHECK_INTERVAL_SECONDS : Int := 60

def AGGRESSIVE_CHECK_INTERVAL_SECONDS : Int := 30

def AGGRESSIVE_CHECK_THRESHOLD_MINUTES : Int := 5

/-! ## Expiry oracle: login-timestamp persistence

The directory `~/.aws-sso-status` holds one file per profile
(`.login_timestamp_<profile>`, ISO-8601 instant as contents).  We model the
directory as an association list from profile name to the stored instant
(seconds); writing prepends, reading takes the first (most recent) entry,
which gives overwrite semantics.  `astimezone()` does not change the
absolute instant, so it is the identity here. -/

/-- The persisted login-timestamp files: profile name ↦ stored instant. -/
abbrev TimestampStore := List (String × Int)

/-- `load_login_timestamp(profile)`: read the persisted timestamp for a
profile; `none` when the file is absent (or unreadable/unparsable). -/
def load_login_timestamp : TimestampStore → String → Option Int
  | [], _ => none
  | (q, t) :: rest, p => if q = p then some t else load_login_timestamp rest p

/-- `save_login_timestamp(profile)`: record the current instant `now` for
`profile`, overwriting any prior value.  The whole body sits in a
try/except-pass, so the write is best-effort: `ok` says whether the durable
write succeeded, and on failure the store is left unchanged, any stale
timestamp staying in place. -/
def save_login_timestamp (store : TimestampStore) (profile : String) (now : Int)
    (ok : Bool) : TimestampStore :=
  if ok then (profile, now) :: store else store

/-- `calculate_session_expiry(profile)`: stored login instant plus
`SESSION_DURATION_HOURS`; `none` when no timestamp is recorded. -/
def calculate_session_expiry (store : TimestampStore) (profile : String) : Option Int :=
  match load_login_timestamp store profile with
  | none => none
  | some login_time => some (login_time + SESSION_DURATION_HOURS * 3600)

/-! ## External command construction (`is_logged_in`, `refresh_profile`) -/

/-- The argv built by `is_logged_in(profile)`: `aws sts get-caller-identity`,
with `--profile <p>` appended iff `profile` is truthy and not `"default"`. -/
def is_logged_in_cmd (aws_cli profile : String) : List String :=
  let cmd := [aws_cli, "sts", "get-caller-identity"]
  if profile ≠ "" ∧ profile ≠ "default" then cmd ++ ["--profile", profile] else cmd

/-- The argv built by `refresh_profile(profile)`: `aws sso login`, with
`--profile <p>` appended iff `profile` is truthy and not `"default"`. -/
def sso_login_cmd (aws_cli profile : String) : List String :=
  let cmd := [aws_cli, "sso", "login"]
  if profile ≠ "" ∧ profile ≠ "default" then cmd ++ ["--profile", profile] else cmd

/-! ## Profile registry -/

/-- One section of `~/.aws/config` as the config parser reports it: its name
and the option keys visible in it. -/
structure ConfigSection where
  name : String
  options : List String
deriving DecidableEq, Repr

/-- Python's `str.startswith`, over the character list. -/
def py_startswith (s pre : String) : Bool :=
  pre.data.isPrefixOf s.data

/-- Python's slicing `s[n:]`: drop the first `n` characters. -/
def py_drop (s : String) (n : Nat) : String :=
  ⟨s.data.drop n⟩

/-- The profile name a section contributes: `"default"` for the default
section, the suffix after `"profile "` for profile sections, nothing
otherwise (the `continue` branch of the source loop). -/
def section_profile_name (sec : String) : Option String :=
  if sec = "default" then some "default"
  else if py_startswith sec "profile " then some (py_drop sec 8)
  else none

/-- Whether a section declares SSO configuration: it has `sso_start_url` or
`sso_session`. -/
def has_sso_option (sec : ConfigSection) : Bool :=
  sec.options.contains "sso_start_url" || sec.options.contains "sso_session"

/-- `discover_sso_profiles()`: the input is `none` when `~/.aws/config` is
missing, unreadable or malformed (the source returns early or catches the
parse exception), otherwise the parsed section list.  Returns the qualifying
profile names in order, or `["default"]` when there are none. -/
def discover_sso_profiles (config : Option (List ConfigSection)) : List String :=
  match config with
  | none => ["default"]
  | some sections =>
      let profiles := sections.filterMap fun sec =>
        match section_profile_name sec.name with
        | none => none
        | some pname => if has_sso_option sec then some pname else none
      if profiles.isEmpty then ["default"] else profiles

/-- Modelled from the spec: a section "qualifies as SSO-enabled if it is the
default section or is a \"profile \"-prefixed section, AND it declares
either an SSO start-URL or an SSO session reference". -/
def qualifies_spec (sec : ConfigSection) : Bool :=
  (sec.name == "default" || py_startswith sec.name "profile ") && has_sso_option sec

/-- The profile name of a qualifying section, per the spec's wording. -/
def qualified_name (sec : ConfigSection) : String :=
  if sec.name = "default" then "default" else py_drop sec.name 8

/-- Python's `str.strip()`: drop whitespace from both ends. -/
def py_strip (s : String) : String :=
  ⟨((s.data.dropWhile Char.isWhitespace).reverse.dropWhile Char.isWhitespace).reverse⟩

/-- `load_active_profile()`: the input is `none` when the active-profile file
is absent or reading it raises; otherwise the file's contents.  Returns the
stripped contents, falling back to `"default"`. -/
def load_active_profile (content : Option String) : String :=
  match content with
  | some text => py_strip text
  | none => "default"

/-! ## Status reconciler -/

/-- The three-level status derived each tick (icon ✕ / ⚠ / ✓). -/
inductive Level where
  | OK
  | Warning
  | Expired
deriving DecidableEq, Repr

/-- The polling-cadence regime, derived from the two mode booleans. -/
inductive CadenceMode where
  | Normal
  | Aggressive
  | Fast
deriving DecidableEq, Repr

/-- The reconciler's mutable state: active profile, the two cadence
booleans, the current timer interval and the persisted timestamp store. -/
structure AppState where
  active_profile : String
  fast_mode : Bool
  aggressive_mode : Bool
  timer_interval : Int
  store : TimestampStore
deriving DecidableEq, Repr

/-- The cadence mode of a state: `fast_mode` dominates, then
`aggressive_mode`, else normal. -/
def cadence (s : AppState) : CadenceMode :=
  if s.fast_mode then CadenceMode.Fast
  else if s.aggressive_mode then CadenceMode.Aggressive
  else CadenceMode.Normal

/-- The status snapshot a tick publishes to the presentation layer. -/
structure Snapshot where
  logged_in : Bool
  expiry : Option Int
  minutes_remaining : Option Int
  level : Level
deriving DecidableEq, Repr

/-- Result of one tick: new state, published snapshot, the profiles for
which `save_login_timestamp` ran, and the notifications raised. -/
structure TickResult where
  state : AppState
  snapshot : Snapshot
  recorded : List String
  notified : List String
deriving DecidableEq, Repr

/-- `total_minutes` as the source computes it on line 253:
`int(delta.total_seconds() / 60)`, i.e. truncation toward zero of the
signed difference in minutes (`Int.div` is T-division). -/
def total_minutes (expiry now : Int) : Int :=
  Int.tdiv (expiry - now) 60

/-- `AWSSSOStatusApp.update_status`: one tick.  `now` is the clock reading
at the top of the tick (line 213); `now_save` is the clock reading taken
inside `save_login_timestamp` when the fast-mode login-confirmed branch
runs (line 91); `logged_in` is the result of the live `is_logged_in`
check; `save_ok` says whether that branch's durable timestamp write
succeeds — on failure the swallowed exception leaves the old store, and
line 222 recomputes the expiry from whatever is on disk. -/
def update_status (s : AppState) (now now_save : Int) (logged_in : Bool)
    (save_ok : Bool) : TickResult :=
  let confirm := s.fast_mode && logged_in
  let store1 := if confirm then
                  save_login_timestamp s.store s.active_profile now_save save_ok
                else s.store
  let expiry1 := calculate_session_expiry store1 s.active_profile
  let fast1 := if confirm then false else s.fast_mode
  let interval1 := if confirm then CHECK_INTERVAL_SECONDS else s.timer_interval
  let recorded : List String := if confirm then [s.active_profile] else []
  let notified : List String := if confirm then ["Login confirmed"] else []
  match expiry1, logged_in with
  | some e, true =>
      let tm := total_minutes e now
      let aggr2 :=
        if tm ≤ AGGRESSIVE_CHECK_THRESHOLD_MINUTES ∧ fast1 = false then true
        else if s.aggressive_mode = true ∧ tm > AGGRESSIVE_CHECK_THRESHOLD_MINUTES then false
        else s.aggressive_mode
      let interval2 :=
        if tm ≤ AGGRESSIVE_CHECK_THRESHOLD_MINUTES ∧ fast1 = false then
          if s.aggressive_mode = false then AGGRESSIVE_CHECK_INTERVAL_SECONDS else interval1
        else if s.aggressive_mode = true ∧ tm > AGGRESSIVE_CHECK_THRESHOLD_MINUTES then
          CHECK_INTERVAL_SECONDS
        else interval1
      let level := if tm ≤ 0 then Level.Expired
                   else if tm < EXPIRY_WARNING_MINUTES then Level.Warning
                   else Level.OK
      { state := { s with
                   fast_mode := fast1,
                   aggressive_mode := aggr2,
                   timer_interval := interval2,
                   store := store1 },
        snapshot := { logged_in := true,
                      expiry := some e,
                      minutes_remaining := some tm,
                      level := level },
        recorded := recorded,
        notified := notified }
  | _, _ =>
      let aggr2 := if fast1 then s.aggressive_mode else false
      let interval2 := if fast1 then interval1 else CHECK_INTERVAL_SECONDS
      { state := { s with
                   fast_mode := fast1,
                   aggressive_mode := aggr2,
                   timer_interval := interval2,
                   store := store1 },
        snapshot := { logged_in := logged_in,
                      expiry := none,
                      minutes_remaining := none,
                      level := Level.Expired },
        recorded := recorded,
        notified := notified }

/-! ## Helper lemmas -/

/-- Reading back the timestamp just successfully saved yields exactly the
saved instant. -/
theorem load_after_save (store : TimestampStore) (p : String) (t : Int) :
    load_login_timestamp (save_login_timestamp store p t true) p = some t := by
  simp [save_login_timestamp, load_login_timestamp]

/-- The expiry computed right after a successful save is the saved instant
plus the session duration. -/
theorem expiry_after_save (store : TimestampStore) (p : String) (t : Int) :
    calculate_session_expiry (save_login_timestamp store p t true) p
      = some (t + SESSION_DURATION_HOURS * 3600) := by
  simp [calculate_session_expiry, load_after_save]

/-- A failed (swallowed) save leaves the store unchanged. -/
theorem save_login_timestamp_failed (store : TimestampStore) (p : String) (t : Int) :
    save_login_timestamp store p t false = store :=
  rfl

/-- Floor division by 60 never exceeds truncating division by 60, and the
two differ by at most one. -/
theorem fdiv_tdiv_bounds (a : Int) :
    Int.fdiv a 60 ≤ Int.tdiv a 60 ∧ Int.tdiv a 60 ≤ Int.fdiv a 60 + 1 := by
  have hfd : Int.fdiv a 60 = a / 60 := Int.fdiv_eq_ediv a (by norm_num)
  rcases le_or_lt 0 a with h | h
  · rw [hfd, Int.tdiv_eq_ediv h (by norm_num)]
    omega
  · have hneg : (0 : Int) ≤ -a := by omega
    have ht : Int.tdiv a 60 = -((-a) / 60) := by
      rw [show a = -(-a) by omega, Int.neg_tdiv, Int.tdiv_eq_ediv hneg (by norm_num)]
      omega
    have e1 := Int.ediv_add_emod a 60
    have e2 := Int.ediv_add_emod (-a) 60
    have r1 := Int.emod_nonneg a (by norm_num : (60 : Int) ≠ 0)
    have r1' := Int.emod_lt_of_pos a (by norm_num : (0 : Int) < 60)
    have r2 := Int.emod_nonneg (-a) (by norm_num : (60 : Int) ≠ 0)
    have r2' := Int.emod_lt_of_pos (-a) (by norm_num : (0 : Int) < 60)
    rw [hfd, ht]
    omega

/-- Truncating division agrees with floor division on nonnegative
numerators. -/
theorem tdiv_eq_fdiv_of_nonneg (a : Int) (h : 0 ≤ a) :
    Int.tdiv a 60 = Int.fdiv a 60 := by
  rw [Int.tdiv_eq_ediv h (by norm_num), Int.fdiv_eq_ediv a (by norm_num)]

/-- A numerator of at least a full session keeps the truncated minute count
strictly above the aggressive threshold. -/
theorem five_lt_tdiv_of_session (x : Int) (hx : 28800 ≤ x) :
    5 < Int.tdiv x 60 := by
  have h0 : (0 : Int) ≤ x := by omega
  rw [Int.tdiv_eq_ediv h0 (by norm_num)]
  have h6 : (6 : Int) ≤ x / 60 := (Int.le_ediv_iff_mul_le (by norm_num)).mpr (by omega)
  omega

/-- The minute count right after a confirmed login exceeds the aggressive
threshold (the save-time clock reading is not earlier than the tick's). -/
theorem five_lt_total_minutes_confirm (now ns : Int) (h : now ≤ ns) :
    5 < total_minutes (ns + SESSION_DURATION_HOURS * 3600) now := by
  unfold total_minutes SESSION_DURATION_HOURS
  exact five_lt_tdiv_of_session _ (by omega)

/-- The per-section step of the discovery loop agrees with the spec's
qualification predicate. -/
theorem discover_entry (sec : ConfigSection) :
    (match section_profile_name sec.name with
     | none => none
     | some pname => if has_sso_option sec then some pname else none)
    = if qualifies_spec sec then some (qualified_name sec) else none := by
  unfold section_profile_name qualifies_spec qualified_name
  by_cases h1 : sec.name = "default" <;>
    by_cases h2 : py_startswith sec.name "profile " = true <;>
    by_cases h3 : has_sso_option sec = true <;>
    simp [h1, h2, h3]

/-- The discovery loop collects exactly the names of the qualifying
sections, in order. -/
theorem discover_filterMap (secs : List ConfigSection) :
    (secs.filterMap fun sec =>
       match section_profile_name sec.name with
       | none => none
       | some pname => if has_sso_option sec then some pname else none)
    = (secs.filter qualifies_spec).map qualified_name := by
  induction secs with
  | nil => rfl
  | cons sec rest ih =>
      rw [List.filterMap_cons, List.filter_cons, discover_entry sec]
      by_cases h : qualifies_spec sec <;> simp [h, ih]

/-- C4 counterexample: a tick whose expiry lies 90 seconds in the past
(login stored 8h plus 90s ago) while still logged in computes
`minutesRemaining = -1`, but the mathematical floor of the signed
difference in minutes is `-2`. -/
theorem c4_minutes_not_floor :
    (update_status ⟨"default", false, false, 60, [("default", -28890)]⟩ 0 0
        true true).snapshot.expiry = some (-90) ∧
    (update_status ⟨"default", false, false, 60, [("default", -28890)]⟩ 0 0
        true true).snapshot.minutes_remaining = some (-1) ∧
    Int.fdiv ((-90) - 0) 60 = -2 ∧ ((-1 : Int) ≠ -2) := by
  refine ⟨rfl, rfl, by decide, by decide⟩

/-- C4 (amended): the reconciler's `minutesRemaining` is the truncation
toward zero of the signed difference in minutes: it equals the mathematical
floor whenever the expiry is not earlier than `now`, and in general lies
between the floor and the floor plus one. -/
theorem c4_minutes_truncation (e n : Int) :
    (n ≤ e → total_minutes e n = Int.fdiv (e - n) 60) ∧
    Int.fdiv (e - n) 60 ≤ total_minutes e n ∧
    total_minutes e n ≤ Int.fdiv (e - n) 60 + 1 := by
  refine ⟨fun h => ?_, (fdiv_tdiv_bounds (e - n)).1, (fdiv_tdiv_bounds (e - n)).2⟩
  exact tdiv_eq_fdiv_of_nonneg (e - n) (by omega)

/-- C4 witness: at `expiry = 120`, `now = 0` the truncated and floor minute
counts agree. -/
theorem c4_minutes_truncation_witness :
    total_minutes 120 0 = Int.fdiv (120 - 0) 60 :=
  (c4_minutes_truncation 120 0).1 (by decide)

/-- C6: recording a login at instant `t`, with its durable write
succeeding, makes the computed expiry exactly `t` plus the 8-hour session
duration; the stored value reads back exactly, other profiles' records are
untouched, and a later record for the same profile overwrites the
expiry. -/
theorem c6_record_login_roundtrip (store : TimestampStore) (p : String) (t t2 : Int) :
    load_login_timestamp (save_login_timestamp store p t true) p = some t ∧
    calculate_session_expiry (save_login_timestamp store p t true) p
      = some (t + SESSION_DURATION_HOURS * 3600) ∧
    (∀ q, q ≠ p → load_login_timestamp (save_login_timestamp store p t true) q
      = load_login_timestamp store q) ∧
    calculate_session_expiry
        (save_login_timestamp (save_login_timestamp store p t true) p t2 true) p
      = some (t2 + SESSION_DURATION_HOURS * 3600) := by
  refine ⟨load_after_save store p t, expiry_after_save store p t, ?_,
    expiry_after_save _ p t2⟩
  intro q hq
  have hpq : ¬p = q := fun h => hq h.symm
  simp [save_login_timestamp, load_login_timestamp, hpq]

/-- C6 witness: a concrete record at instant 100 for `"prod"` gives expiry
28900 and leaves `"dev"`'s record alone. -/
theorem c6_record_login_roundtrip_witness :
    calculate_session_expiry (save_login_timestamp [] "prod" 100 true) "prod"
      = some (100 + SESSION_DURATION_HOURS * 3600) ∧
    load_login_timestamp (save_login_timestamp [("dev", 5)] "prod" 100 true) "dev"
      = load_login_timestamp [("dev", 5)] "dev" :=
  ⟨(c6_record_login_roundtrip [] "prod" 100 0).2.1,
   (c6_record_login_roundtrip [("dev", 5)] "prod" 100 0).2.2.1 "dev" (by decide)⟩

/-- C7: profile discovery never fails outward: a missing, unreadable or
malformed configuration gives exactly `["default"]`; otherwise the result is
the ordered list of names of qualifying sections (default section or
"profile "-prefixed, declaring `sso_start_url` or `sso_session`), with
`["default"]` when none qualify; the two-section scenario yields
`["prod"]`. -/
theorem c7_discover_profiles (secs : List ConfigSection) :
    discover_sso_profiles none = ["default"] ∧
    discover_sso_profiles (some secs)
      = (if ((secs.filter qualifies_spec).map qualified_name).isEmpty
         then ["default"]
         else (secs.filter qualifies_spec).map qualified_name) ∧
    discover_sso_profiles
        (some [⟨"default", []⟩, ⟨"profile prod", ["sso_start_url"]⟩])
      = ["prod"] := by
  refine ⟨rfl, ?_, by decide⟩
  simp only [discover_sso_profiles]
  rw [discover_filterMap secs]

/-- C9: when the active-profile file is present and readable, its stripped
contents are returned as-is, so whitespace-only contents give the empty
string, not `"default"`; the `"default"` fallback arises exactly from the
absent/unreadable case. -/
theorem c9_active_profile_whitespace :
    (∀ s : String, (∀ c ∈ s.data, c.isWhitespace = true) →
      load_active_profile (some s) = "") ∧
    load_active_profile none = "default" ∧
    ("" : String) ≠ "default" ∧
    (∀ s : String, load_active_profile (some s) = py_strip s) := by
  refine ⟨?_, rfl, by decide, fun s => rfl⟩
  intro s hs
  have h1 : s.data.dropWhile Char.isWhitespace = [] :=
    List.dropWhile_eq_nil_iff.mpr hs
  simp only [load_active_profile, py_strip, h1, List.reverse_nil, List.dropWhile_nil]

/-- C9 witness: a file containing only blanks and a newline yields the
empty profile name. -/
theorem c9_active_profile_whitespace_witness :
    load_active_profile (some "  \n ") = "" :=
  c9_active_profile_whitespace.1 "  \n " (by decide)

/-- C10: both external commands take `--profile <p>` exactly when the
profile name is non-empty and differs from `"default"`, and are otherwise
invoked unscoped. -/
theorem c10_profile_scoping (a p : String) :
    (p ≠ "" ∧ p ≠ "default" →
      is_logged_in_cmd a p = [a, "sts", "get-caller-identity", "--profile", p] ∧
      sso_login_cmd a p = [a, "sso", "login", "--profile", p]) ∧
    (p = "" ∨ p = "default" →
      is_logged_in_cmd a p = [a, "sts", "get-caller-identity"] ∧
      sso_login_cmd a p = [a, "sso", "login"]) := by
  unfold is_logged_in_cmd sso_login_cmd
  constructor
  · intro h
    rw [if_pos h, if_pos h]
    exact ⟨rfl, rfl⟩
  · intro h
    have hn : ¬(p ≠ "" ∧ p ≠ "default") := by tauto
    rw [if_neg hn, if_neg hn]
    exact ⟨rfl, rfl⟩

/-- C10 witness: for profile `"prod"` both commands are profile-scoped, and
for `"default"` both are unscoped. -/
theorem c10_profile_scoping_witness :
    is_logged_in_cmd "aws" "prod"
      = ["aws", "sts", "get-caller-identity", "--profile", "prod"] ∧
    sso_login_cmd "aws" "default" = ["aws", "sso", "login"] :=
  ⟨((c10_profile_scoping "aws" "prod").1 (by decide)).1,
   ((c10_profile_scoping "aws" "default").2 (Or.inr rfl)).2⟩

/-- C1 counterexample: a tick whose expiry equals the current instant
(still logged in, no login outstanding) ends with Aggressive cadence while
`minutesRemaining = 0`, so the claimed lower bound `0 < minutesRemaining`
fails. -/
theorem c1_aggressive_at_zero_minutes :
    cadence (update_status ⟨"default", false, false, 60, [("default", -28800)]⟩
        0 0 true true).state = CadenceMode.Aggressive ∧
    (update_status ⟨"default", false, false, 60, [("default", -28800)]⟩
        0 0 true true).snapshot.minutes_remaining = some 0 ∧
    ¬((0 : Int) < 0) := by
  refine ⟨rfl, rfl, by decide⟩

/-- C1 (amended): whenever the cadence is Aggressive at the end of a tick,
that tick computed `minutesRemaining ≤ 5` (with no lower bound) and Fast
mode is not set; a tick computing `minutesRemaining = 5` is
Aggressive-eligible and one computing `minutesRemaining = 6` is not. -/
theorem c1_aggressive_threshold (s : AppState) (now ns : Int) (li sv : Bool) :
    (cadence (update_status s now ns li sv).state = CadenceMode.Aggressive →
      ∃ m, (update_status s now ns li sv).snapshot.minutes_remaining = some m ∧
        m ≤ AGGRESSIVE_CHECK_THRESHOLD_MINUTES ∧
        (update_status s now ns li sv).state.fast_mode = false) ∧
    (s.fast_mode = false →
      (update_status s now ns li sv).snapshot.minutes_remaining = some 5 →
      cadence (update_status s now ns li sv).state = CadenceMode.Aggressive) ∧
    ((update_status s now ns li sv).snapshot.minutes_remaining = some 6 →
      cadence (update_status s now ns li sv).state ≠ CadenceMode.Aggressive) := by
  unfold update_status
  cases hf : s.fast_mode <;> cases hl : li <;>
    simp only [Bool.true_and, Bool.false_and, Bool.and_true, Bool.and_false,
      if_true, if_false, ite_true, ite_false, Bool.false_eq_true,
      Bool.true_eq_false, expiry_after_save]
  case false.false =>
    rcases he : calculate_session_expiry s.store s.active_profile with _ | e <;>
      simp [he, cadence]
  case false.true =>
    rcases he : calculate_session_expiry s.store s.active_profile with _ | e
    · simp [he, cadence]
    · simp only [he]
      split_ifs <;>
        simp_all [cadence, AGGRESSIVE_CHECK_THRESHOLD_MINUTES] <;> omega
  case true.false =>
    rcases he : calculate_session_expiry s.store s.active_profile with _ | e <;>
      simp [he, cadence]
  case true.true =>
    cases hsv : sv
    · simp only [save_login_timestamp_failed]
      rcases he : calculate_session_expiry s.store s.active_profile with _ | e
      · simp [he, cadence]
      · simp only [he]
        split_ifs <;>
          simp_all [cadence, AGGRESSIVE_CHECK_THRESHOLD_MINUTES] <;> omega
    · simp only [expiry_after_save]
      split_ifs <;> simp_all [cadence, AGGRESSIVE_CHECK_THRESHOLD_MINUTES] <;> omega

/-- C1 witness: a tick computing `minutesRemaining = 5` from Normal cadence
ends Aggressive. -/
theorem c1_aggressive_threshold_witness :
    cadence (update_status ⟨"default", false, false, 60, [("default", -28500)]⟩
        0 0 true true).state = CadenceMode.Aggressive :=
  (c1_aggressive_threshold ⟨"default", false, false, 60, [("default", -28500)]⟩
      0 0 true true).2.1 rfl rfl

/-- C2 counterexample: a tick that starts Fast with live login true, whose
login-timestamp write fails (swallowed), while the stale timestamp on disk
lies 4 minutes from expiry, ends Aggressive: the confirm branch clears
Fast mode, line 222 recomputes the expiry from the stale file, and
line 258 then enters aggressive mode. -/
theorem c2_fast_to_aggressive_on_failed_save :
    (⟨"prod", true, false, 1, [("prod", -28560)]⟩ : AppState).fast_mode = true ∧
    cadence (update_status ⟨"prod", true, false, 1, [("prod", -28560)]⟩
        0 0 true false).state = CadenceMode.Aggressive := by
  refine ⟨rfl, rfl⟩

/-- C2 (amended): provided the tick's login-timestamp write (when one
occurs) succeeds, a tick that starts in Fast cadence never ends Aggressive:
it ends Normal when the live-login check reports true and stays Fast
otherwise (the save-time clock reading is not earlier than the tick's). -/
theorem c2_fast_never_to_aggressive (s : AppState) (now ns : Int) (li : Bool)
    (hf : s.fast_mode = true) (hns : now ≤ ns) :
    cadence (update_status s now ns li true).state ≠ CadenceMode.Aggressive ∧
    (li = true →
      cadence (update_status s now ns li true).state = CadenceMode.Normal) ∧
    (li = false →
      cadence (update_status s now ns li true).state = CadenceMode.Fast) := by
  have htm := five_lt_total_minutes_confirm now ns hns
  unfold update_status
  cases hl : li <;>
    simp only [hf, Bool.true_and, Bool.false_and, Bool.and_true, Bool.and_false,
      if_true, if_false, ite_true, ite_false, Bool.false_eq_true,
      Bool.true_eq_false, expiry_after_save]
  · rcases he : calculate_session_expiry s.store s.active_profile with _ | e <;>
      simp [he, cadence]
  · split_ifs <;> simp_all [cadence, AGGRESSIVE_CHECK_THRESHOLD_MINUTES] <;> omega

/-- C2 witness: a Fast-mode tick with live login true and a successful
write ends Normal. -/
theorem c2_fast_never_to_aggressive_witness :
    cadence (update_status ⟨"prod", true, false, 1, []⟩ 0 0 true true).state
      = CadenceMode.Normal :=
  (c2_fast_never_to_aggressive ⟨"prod", true, false, 1, []⟩ 0 0 true rfl
    (by decide)).2.1 rfl

/-- C3 counterexample: a Fast tick with live login true whose timestamp
write fails (stale timestamp 3 minutes from expiry) still calls
`save_login_timestamp` once, but the published expiry is the stale value
rather than the would-be new timestamp (0) plus 8 hours, the timer ends at
the aggressive 30-second interval rather than the normal one, and the
cadence ends Aggressive rather than Normal. -/
theorem c3_stale_expiry_on_failed_save :
    (update_status ⟨"prod", true, false, 1, [("prod", -28620)]⟩ 0 0 true
        false).recorded = ["prod"] ∧
    (update_status ⟨"prod", true, false, 1, [("prod", -28620)]⟩ 0 0 true
        false).snapshot.expiry = some 180 ∧
    (180 : Int) ≠ 0 + SESSION_DURATION_HOURS * 3600 ∧
    (update_status ⟨"prod", true, false, 1, [("prod", -28620)]⟩ 0 0 true
        false).state.timer_interval = AGGRESSIVE_CHECK_INTERVAL_SECONDS ∧
    AGGRESSIVE_CHECK_INTERVAL_SECONDS ≠ CHECK_INTERVAL_SECONDS ∧
    cadence (update_status ⟨"prod", true, false, 1, [("prod", -28620)]⟩ 0 0 true
        false).state = CadenceMode.Aggressive := by
  refine ⟨rfl, rfl, by decide, rfl, by decide, rfl⟩

/-- C3 (amended): on a Fast-mode tick with live login true, exactly one
`save_login_timestamp` call is made (for the active profile) and a
user-visible confirmation is raised; provided that call's durable write
succeeds, the cadence moves Fast → Normal with the timer back at the
normal interval, and the expiry used from then on is the newly recorded
instant plus the 8-hour session duration. -/
theorem c3_login_confirmed_tick (s : AppState) (now ns : Int) (sv : Bool)
    (hf : s.fast_mode = true) (hns : now ≤ ns) :
    (update_status s now ns true sv).recorded = [s.active_profile] ∧
    (update_status s now ns true sv).notified = ["Login confirmed"] ∧
    (sv = true →
      cadence (update_status s now ns true sv).state = CadenceMode.Normal ∧
      (update_status s now ns true sv).state.timer_interval
        = CHECK_INTERVAL_SECONDS ∧
      calculate_session_expiry (update_status s now ns true sv).state.store
          s.active_profile = some (ns + SESSION_DURATION_HOURS * 3600) ∧
      (update_status s now ns true sv).snapshot.expiry
        = some (ns + SESSION_DURATION_HOURS * 3600)) := by
  have htm := five_lt_total_minutes_confirm now ns hns
  unfold update_status
  cases hsv : sv
  · refine ⟨?_, ?_, fun h => by simp at h⟩ <;>
    · simp only [hf, Bool.true_and, if_true, ite_true, save_login_timestamp_failed]
      rcases he : calculate_session_expiry s.store s.active_profile with _ | e <;>
        simp only [he]
  · simp only [hf, Bool.true_and, if_true, ite_true, expiry_after_save]
    split_ifs <;>
      simp_all [cadence, expiry_after_save, AGGRESSIVE_CHECK_THRESHOLD_MINUTES] <;>
      omega

/-- C3 witness: a concrete confirmed-login tick with a successful write
records `"prod"` once and publishes the freshly recorded expiry. -/
theorem c3_login_confirmed_tick_witness :
    (update_status ⟨"prod", true, true, 1, []⟩ 0 7 true true).recorded
      = ["prod"] ∧
    (update_status ⟨"prod", true, true, 1, []⟩ 0 7 true true).snapshot.expiry
      = some (7 + SESSION_DURATION_HOURS * 3600) :=
  ⟨(c3_login_confirmed_tick ⟨"prod", true, true, 1, []⟩ 0 7 true rfl
      (by decide)).1,
   ((c3_login_confirmed_tick ⟨"prod", true, true, 1, []⟩ 0 7 true rfl
      (by decide)).2.2 rfl).2.2.2⟩

/-- C5: whenever a tick computes a minute count (present expiry, live login
true), the published level is Expired iff it is ≤ 0, Warning iff it lies in
1..9, and OK iff it is ≥ 10. -/
theorem c5_level_boundaries (s : AppState) (now ns : Int) (li sv : Bool) (m : Int)
    (hm : (update_status s now ns li sv).snapshot.minutes_remaining = some m) :
    ((update_status s now ns li sv).snapshot.level = Level.Expired ↔ m ≤ 0) ∧
    ((update_status s now ns li sv).snapshot.level = Level.Warning ↔ 1 ≤ m ∧ m ≤ 9) ∧
    ((update_status s now ns li sv).snapshot.level = Level.OK ↔ 10 ≤ m) := by
  unfold update_status at hm ⊢
  cases hf : s.fast_mode <;> cases hl : li <;> simp only [hf, hl] at hm ⊢ <;>
    simp only [Bool.true_and, Bool.false_and, Bool.and_true, Bool.and_false,
      if_true, if_false, ite_true, ite_false, Bool.false_eq_true,
      Bool.true_eq_false, expiry_after_save] at hm ⊢
  case false.false =>
    rcases he : calculate_session_expiry s.store s.active_profile with _ | e <;>
      simp [he] at hm
  case false.true =>
    rcases he : calculate_session_expiry s.store s.active_profile with _ | e
    · simp [he] at hm
    · simp only [he] at hm ⊢
      split_ifs <;> simp_all [EXPIRY_WARNING_MINUTES] <;> omega
  case true.false =>
    rcases he : calculate_session_expiry s.store s.active_profile with _ | e <;>
      simp [he] at hm
  case true.true =>
    cases sv
    · simp only [save_login_timestamp_failed] at hm ⊢
      rcases he : calculate_session_expiry s.store s.active_profile with _ | e
      · simp [he] at hm
      · simp only [he] at hm ⊢
        split_ifs <;> simp_all [EXPIRY_WARNING_MINUTES] <;> omega
    · simp only [expiry_after_save] at hm ⊢
      split_ifs <;> simp_all [EXPIRY_WARNING_MINUTES] <;> omega

/-- C5 witness: a tick with a full 8-hour session left (480 minutes)
publishes level OK. -/
theorem c5_level_boundaries_witness :
    (update_status ⟨"default", false, false, 60, [("default", 0)]⟩
        0 0 true true).snapshot.level = Level.OK :=
  ((c5_level_boundaries ⟨"default", false, false, 60, [("default", 0)]⟩
      0 0 true true 480 rfl).2.2).mpr (by norm_num)

/-- C8: a profile with no recorded timestamp has no computed expiry, and a
tick whose (recomputed) expiry is absent or whose live-login check is false
publishes `{loggedIn: live, expiry: none, level: Expired}` and, when Fast
mode is not set, forces the cadence back to Normal. -/
theorem c8_absent_expiry_tick (store : TimestampStore) (p : String)
    (s : AppState) (now ns : Int) (li sv : Bool) :
    (load_login_timestamp store p = none → calculate_session_expiry store p = none) ∧
    (li = false ∨
        (calculate_session_expiry s.store s.active_profile = none ∧
          s.fast_mode = false) →
      (update_status s now ns li sv).snapshot = ⟨li, none, none, Level.Expired⟩ ∧
      (s.fast_mode = false →
        cadence (update_status s now ns li sv).state = CadenceMode.Normal)) := by
  constructor
  · intro h
    simp [calculate_session_expiry, h]
  · intro h
    unfold update_status
    rcases h with h | ⟨he, hfa⟩
    · subst h
      cases hf : s.fast_mode <;>
        simp only [hf, Bool.and_false, if_false, ite_false, Bool.false_eq_true] <;>
        rcases he : calculate_session_expiry s.store s.active_profile with _ | e <;>
          simp [he, cadence]
    · simp [hfa, he, cadence]

/-- C8 witness: with an empty store and live login false, the tick
publishes the inactive snapshot and exits Aggressive back to Normal. -/
theorem c8_absent_expiry_tick_witness :
    calculate_session_expiry [] "default" = none ∧
    (update_status ⟨"default", false, true, 30, []⟩ 0 0 false true).snapshot
      = ⟨false, none, none, Level.Expired⟩ ∧
    cadence (update_status ⟨"default", false, true, 30, []⟩ 0 0 false true).state
      = CadenceMode.Normal :=
  ⟨(c8_absent_expiry_tick [] "default" ⟨"default", false, true, 30, []⟩
      0 0 false true).1 rfl,
   ((c8_absent_expiry_tick [] "default" ⟨"default", false, true, 30, []⟩
      0 0 false true).2 (Or.inl rfl)).1,
   ((c8_absent_expiry_tick [] "default" ⟨"default", false, true, 30, []⟩
      0 0 false true).2 (Or.inl rfl)).2 rfl⟩
